import Mathlib

/-!
# Verification of the highbrooks-realty location-analysis core

Shallow embedding of the location-scoring / alternative-site discovery
pipeline (`src/lib/googleMapsService.ts`), the three-tier narrative
analysis generator (`src/lib/openaiService.ts`) and the report
assembly / cache / lookup handlers (the analyze API route).

External effects (HTTP fetches, the text-generation service call,
JSON.parse of the service's free-form reply, the regex extraction over
its prose, and the durable-store query) are modelled as explicit input
values: each embedded function takes the outcome of its external calls
as an argument and is otherwise a faithful translation of the
TypeScript.  JavaScript numbers are modelled as ℚ (ratings, scores)
or ℤ/ℕ (counts, currency figures); `Math.round` is half-up rounding;
JavaScript truthiness tests (`if (x)`, `x || d`) are translated
explicitly, including their behaviour on `0` and the empty string.
-/

namespace HighbrooksRealty

/-- JavaScript `Math.round`: round half towards positive infinity. -/
def jsRound (q : ℚ) : ℤ := ⌊q + 1/2⌋

/-- JavaScript `x || d` for a possibly-null number `x`
(`null` and `0` are falsy). -/
def jsOrInt (x : Option ℤ) (d : ℤ) : ℤ :=
  match x with
  | none => d
  | some n => if n = 0 then d else n

/-- JavaScript `x || d` for a string `x` (the empty string is falsy). -/
def jsOrStr (x : String) (d : String) : String :=
  if x = "" then d else x

/-- JavaScript `x || d` for a possibly-undefined string `x`
(`undefined` and the empty string are falsy). -/
def jsOrOpt (x : Option String) (d : String) : String :=
  match x with
  | none => d
  | some s => if s = "" then d else s

/-- `{lat, lng}` coordinate pair (src/lib/googleMapsService.ts, `Coordinates`). -/
structure Coordinates where
  lat : ℚ
  lng : ℚ
deriving Repr, DecidableEq

/-- A place record from the places index
(src/lib/googleMapsService.ts, `Place`).  Optional fields of the API
payload are `Option`; `types` is the category-tag list. -/
structure Place where
  place_id : String
  name : String
  vicinity : Option String
  formatted_address : Option String
  location : Coordinates
  rating : Option ℚ
  user_ratings_total : Option ℕ
  price_level : Option ℤ
  types : List String
deriving Repr, DecidableEq

/-- Status field of a places-nearby-search response. -/
inductive PlacesStatus where
  | OK | ZERO_RESULTS | OVER_QUERY_LIMIT | REQUEST_DENIED
  | INVALID_REQUEST | UNKNOWN_ERROR
deriving Repr, DecidableEq

/-- Body of a places-nearby-search response;
`results` is `Option` because the code defends with `data.results || []`. -/
structure PlacesNearbySearchResponse where
  status : PlacesStatus
  results : Option (List Place)
deriving Repr, DecidableEq

/-- Category → Google place-type mapping inside `getNearbyPlaces`
(`typeMapping`, with the `|| 'establishment'` default). -/
def categoryToPlaceType (category : String) : String :=
  let c := category.toLower
  if c = "restaurant" then "restaurant"
  else if c = "cafe" then "cafe"
  else if c = "hotel" then "lodging"
  else if c = "hostel" then "lodging"
  else "establishment"

/-- `GoogleMapsService.getNearbyPlaces`, as a function of the fetch
outcome: a thrown fetch/transport error yields `[]` (the catch block),
a non-OK status yields `[]`, and an OK response yields
`data.results || []`. -/
def getNearbyPlaces (fetchResult : Except String PlacesNearbySearchResponse) :
    List Place :=
  match fetchResult with
  | .error _ => []
  | .ok data =>
    if data.status ≠ PlacesStatus.OK then []
    else data.results.getD []

/-- Rating factor of `calculateLocationScore`:
`if (place.rating) { score += (place.rating - 2.5) * 10 }`.
A rating of `0` is falsy in JavaScript, so it contributes nothing. -/
def ratingAdjustment (rating : Option ℚ) : ℚ :=
  match rating with
  | none => 0
  | some r => if r = 0 then 0 else (r - 2.5) * 10

/-- Reviews-count factor of `calculateLocationScore`:
`Math.min(user_ratings_total / 100, 1) * 15`, guarded by truthiness. -/
def reviewAdjustment (total : Option ℕ) : ℚ :=
  match total with
  | none => 0
  | some n => if n = 0 then 0 else min ((n : ℚ) / 100) 1 * 15

/-- Price-level factor of `calculateLocationScore`:
`(3 - price_level) * 5`, applied whenever `price_level !== undefined`
(so also for price level 0). -/
def priceAdjustment (priceLevel : Option ℤ) : ℚ :=
  match priceLevel with
  | none => 0
  | some l => ((3 - l : ℤ) : ℚ) * 5

/-- The fixed relevant-type set of `calculateLocationScore`. -/
def relevantTypes : List String :=
  ["restaurant", "cafe", "lodging", "tourist_attraction"]

/-- Type-relevance bonus of `calculateLocationScore`: +10 when the
place's type tags intersect `relevantTypes`. -/
def typeRelevanceBonus (types : List String) : ℚ :=
  if types.any (fun t => relevantTypes.contains t) then 10 else 0

/-- `GoogleMapsService.calculateLocationScore`: base 50 plus the four
adjustments, then `Math.round` and clamping into `[0, 100]`. -/
def calculateLocationScore (place : Place) : ℤ :=
  let score : ℚ := 50
  let score := score + ratingAdjustment place.rating
  let score := score + reviewAdjustment place.user_ratings_total
  let score := score + priceAdjustment place.price_level
  let score := score + typeRelevanceBonus place.types
  max 0 (min 100 (jsRound score))

/-- `priceLabels` of `generateScoreReasons`. -/
def priceLabels : List String :=
  ["Free", "Inexpensive", "Moderate", "Expensive", "Very Expensive"]

/-- `GoogleMapsService.generateScoreReasons`: advisory reason strings
derived from the same signals as the score. -/
def generateScoreReasons (place : Place) (score : ℤ) : List String :=
  let reasons : List String := []
  let reasons := reasons ++
    (match place.rating with
     | some r => if r ≠ 0 ∧ r ≥ 4 then ["High rating (" ++ toString r ++ "/5)"] else []
     | none => [])
  let reasons := reasons ++
    (match place.user_ratings_total with
     | some n => if n ≠ 0 ∧ n > 100 then ["Popular (" ++ toString n ++ " reviews)"] else []
     | none => [])
  let reasons := reasons ++
    (match place.price_level with
     | some l => [(if l < 0 then "undefined" else priceLabels.getD l.toNat "undefined") ++ " pricing"]
     | none => [])
  let reasons := reasons ++
    (if score ≥ 75 then ["Excellent location score"]
     else if score ≥ 60 then ["Good location potential"]
     else [])
  reasons

/-- An alternative-location candidate
(src/lib/googleMapsService.ts, `AlternativeLocation`). -/
structure AlternativeLocation where
  name : String
  address : String
  coordinates : Coordinates
  score : ℤ
  reasons : List String
deriving Repr, DecidableEq

/-- The candidate record pushed for one place inside
`findAlternativeLocations` (name, `vicinity || formatted_address ||
'Address not available'`, coordinates, score, reasons). -/
def placeToAlternative (place : Place) : AlternativeLocation :=
  let score := calculateLocationScore place
  { name := place.name
    address :=
      jsOrOpt place.vicinity (jsOrOpt place.formatted_address "Address not available")
    coordinates := place.location
    score := score
    reasons := generateScoreReasons place score }

/-- Inner loop of `findAlternativeLocations`: push each of the first
two places of one offset point while the accumulator is below
`count`. -/
def pushCandidates (count : ℕ) (acc : List AlternativeLocation)
    (places : List Place) : List AlternativeLocation :=
  match places with
  | [] => acc
  | p :: rest =>
    if acc.length ≥ count then acc
    else pushCandidates count (acc ++ [placeToAlternative p]) rest

/-- Outer loop of `findAlternativeLocations` over the offset search
points.  Each entry of `outcomes` is the result of the
`getNearbyPlaces` call at one search point (a thrown error is caught,
logged and skipped); `places.slice(0, 2)` keeps at most two candidates
per point, and the loop breaks once `count` candidates are
collected. -/
def collectAlternatives (count : ℕ)
    (outcomes : List (Except String (List Place)))
    (acc : List AlternativeLocation) : List AlternativeLocation :=
  match outcomes with
  | [] => acc
  | .error _ :: rest => collectAlternatives count rest acc
  | .ok places :: rest =>
    let acc := pushCandidates count acc (places.take 2)
    if acc.length ≥ count then acc
    else collectAlternatives count rest acc

/-- The six offset search points of `findAlternativeLocations`
(±0.01° on one axis, ±0.005° diagonals). -/
def searchPoints (lat lng : ℚ) : List Coordinates :=
  [ { lat := lat + 1/100, lng := lng }
  , { lat := lat - 1/100, lng := lng }
  , { lat := lat, lng := lng + 1/100 }
  , { lat := lat, lng := lng - 1/100 }
  , { lat := lat + 5/1000, lng := lng + 5/1000 }
  , { lat := lat - 5/1000, lng := lng - 5/1000 } ]

/-- `GoogleMapsService.findAlternativeLocations` as a function of the
per-search-point fetch outcomes: collect candidates, sort descending
by score (stable, as the comparator `b.score - a.score` under a stable
sort), and truncate to the requested count. -/
def findAlternativeLocations (count : ℕ)
    (outcomes : List (Except String (List Place))) : List AlternativeLocation :=
  let alternatives := collectAlternatives count outcomes []
  (alternatives.mergeSort (fun a b => decide (b.score ≤ a.score))).take count

/-- A competitor profile as built in `handleAnalyze`
(src/unnamed/part_001, step 3b). -/
structure Competitor where
  name : String
  address : String
  lat : Option ℚ
  lng : Option ℚ
  rating : Option ℚ
  user_ratings_total : ℕ
  price_level : Option ℤ
  website : Option String
  phone : Option String
  google_url : Option String
  footfall : ℕ
  average_price_for_2 : Option ℕ
deriving Repr, DecidableEq

/-- The aggregated structured data handed to the narrative analysis
generator (src/lib/openaiService.ts, `AnalysisData`). -/
structure AnalysisData where
  location : String
  category : String
  coordinates : Coordinates
  nearbyPlaces : List Place
  alternatives : List AlternativeLocation
  competitors : List Competitor
  footfallEstimate : ℕ
deriving Repr, DecidableEq

/-- The `metrics` object of an LLM analysis.  All fields are `Option`
because on the strict-JSON tier the parsed object carries whatever the
service returned, which may omit any field. -/
structure LlmMetrics where
  viabilityScore : Option ℚ
  competitionLevel : Option String
  marketSaturation : Option String
  expectedRevenue : Option ℚ
  avgRevenue : Option ℚ
  tam : Option ℚ
deriving Repr, DecidableEq

/-- An analysis object as produced by any of the three tiers of
`generateLocationAnalysis`.  Fields are `Option` to represent
possibly-absent properties of a parsed JSON value. -/
structure LlmAnalysis where
  summary : Option String
  strengths : Option (List String)
  weaknesses : Option (List String)
  opportunities : Option (List String)
  threats : Option (List String)
  metrics : Option LlmMetrics
  recommendation : Option String
  keyInsights : Option (List String)
  actionItems : Option (List String)
deriving Repr, DecidableEq

/-- `OpenAIService.estimateRevenue`: category-keyed base revenue
(`|| 600000`) scaled by a footfall multiplier clamped to `[0.5, 2.0]`,
then `Math.round`. -/
def estimateRevenue (category : String) (footfall : ℕ) : ℤ :=
  let c := category.toLower
  let base : ℚ :=
    if c = "restaurant" then 800000
    else if c = "cafe" then 400000
    else if c = "hotel" then 1500000
    else if c = "hostel" then 600000
    else 600000
  let footfallMultiplier : ℚ := max (1/2) (min 2 ((footfall : ℚ) / 1000))
  jsRound (base * footfallMultiplier)

/-- `OpenAIService.getAverageRevenue`: category-keyed table
(`|| 500000`). -/
def getAverageRevenue (category : String) : ℤ :=
  let c := category.toLower
  if c = "restaurant" then 750000
  else if c = "cafe" then 350000
  else if c = "hotel" then 1200000
  else if c = "hostel" then 500000
  else 500000

/-- `OpenAIService.estimateTAM`: category-keyed table (`|| 40000000`);
the coordinates argument of the source is unused there. -/
def estimateTAM (category : String) : ℤ :=
  let c := category.toLower
  if c = "restaurant" then 50000000
  else if c = "cafe" then 25000000
  else if c = "hotel" then 100000000
  else if c = "hostel" then 30000000
  else 40000000

/-- `OpenAIService.generateFallbackAnalysis`: the fully deterministic
local-heuristics tier, computed from competitor count, nearby-place
count and footfall. -/
def generateFallbackAnalysis (location category : String)
    (data : AnalysisData) : LlmAnalysis :=
  let competitionLevel : String :=
    if data.competitors.length > 5 then "High"
    else if data.competitors.length > 2 then "Medium"
    else "Low"
  let viabilityScore : ℤ :=
    max 30 (85 - ((data.competitors.length : ℤ) * 5)
      + min ((data.nearbyPlaces.length : ℤ) * 2) 20)
  { summary := some ("Location analysis for " ++ category ++ " business at "
      ++ location ++ ". Based on " ++ toString data.competitors.length
      ++ " competitors and " ++ toString data.nearbyPlaces.length
      ++ " nearby establishments.")
    strengths := some
      [ if data.footfallEstimate > 1000 then "High foot traffic area"
          else "Moderate foot traffic"
      , if data.nearbyPlaces.length > 10 then "Well-established commercial area"
          else "Developing area"
      , if data.competitors.length < 3 then "Low competition"
          else "Established market" ]
    weaknesses := some
      [ if data.competitors.length > 5 then "High competition"
          else "Market validation needed"
      , if data.footfallEstimate < 500 then "Limited foot traffic"
          else "Traffic analysis required" ]
    opportunities := some
      [ "Market expansion potential", "Customer base development"
      , "Service differentiation" ]
    threats := some
      [ if competitionLevel = "High" then "Intense competition"
          else "New market entrants"
      , "Economic fluctuations", "Changing consumer preferences" ]
    metrics := some
      { viabilityScore := some (viabilityScore : ℚ)
        competitionLevel := some competitionLevel
        marketSaturation := some competitionLevel
        expectedRevenue := some ((estimateRevenue category data.footfallEstimate : ℤ) : ℚ)
        avgRevenue := some ((getAverageRevenue category : ℤ) : ℚ)
        tam := some ((estimateTAM category : ℤ) : ℚ) }
    recommendation := some
      (if viabilityScore > 70 then "Recommend"
       else if viabilityScore > 50 then "Caution"
       else "Not Recommended")
    keyInsights := some
      [ "Competition level: " ++ competitionLevel
      , "Estimated daily footfall: " ++ toString data.footfallEstimate
      , "Viability score: " ++ toString viabilityScore ++ "/100"
      , "Market saturation: " ++ competitionLevel ]
    actionItems := some
      [ "Conduct detailed market research", "Analyze competitor pricing"
      , "Validate customer demand", "Assess operational costs" ] }

/-- Results of the regex/keyword extraction helpers of
`parseTextResponse` over the service's prose reply
(`extractListItems`, `extractScore`, `extractLevel`,
`extractFinancialMetric`, `extractRecommendation`).  The extraction
functions scan the reply text; their outputs are modelled as
environment inputs here.  `extractScore` and `extractFinancialMetric`
return a number or null (`Option ℤ`); `extractLevel` and
`extractRecommendation` always return a string. -/
structure TextExtraction where
  strengths : List String
  weaknesses : List String
  opportunities : List String
  threats : List String
  insights : List String
  actions : List String
  score : Option ℤ
  competitionLevel : String
  saturationLevel : String
  expectedRevenue : Option ℤ
  avgRevenue : Option ℤ
  tam : Option ℤ
  recommendation : String
deriving Repr, DecidableEq

/-- `OpenAIService.parseTextResponse`: the degraded text-heuristics
tier, assembling an analysis from the extraction results with
field-specific defaults (`|| 75`, `|| 'Medium'`, `|| 0`,
`|| 'Recommend'`, JavaScript truthiness). -/
def parseTextResponse (extraction : TextExtraction)
    (location category : String) : LlmAnalysis :=
  { summary := some ("Analysis for " ++ category ++ " location at " ++ location)
    strengths := some extraction.strengths
    weaknesses := some extraction.weaknesses
    opportunities := some extraction.opportunities
    threats := some extraction.threats
    metrics := some
      { viabilityScore := some ((jsOrInt extraction.score 75 : ℤ) : ℚ)
        competitionLevel := some (jsOrStr extraction.competitionLevel "Medium")
        marketSaturation := some (jsOrStr extraction.saturationLevel "Medium")
        expectedRevenue := some ((jsOrInt extraction.expectedRevenue 0 : ℤ) : ℚ)
        avgRevenue := some ((jsOrInt extraction.avgRevenue 0 : ℤ) : ℚ)
        tam := some ((jsOrInt extraction.tam 0 : ℤ) : ℚ) }
    recommendation := some (jsOrStr extraction.recommendation "Recommend")
    keyInsights := some (extraction.insights.take 5)
    actionItems := some (extraction.actions.take 5) }

/-- Outcome of the text-generation service call together with the
`JSON.parse` attempt on its reply: `parsedJson` when the call
succeeded and the body parsed as JSON (carrying the parsed value),
`textResponse` when the body was non-JSON prose (carrying the regex
extraction results over it), `serviceFailure` when the call itself
threw (network/auth error or empty response). -/
inductive ServiceOutcome where
  | parsedJson (analysis : LlmAnalysis)
  | textResponse (extraction : TextExtraction)
  | serviceFailure
deriving Repr, DecidableEq

/-- `OpenAIService.generateLocationAnalysis`: the three-tier priority
chain — strict JSON parse, text heuristics, local fallback. -/
def generateLocationAnalysis (location category : String)
    (data : AnalysisData) (outcome : ServiceOutcome) : LlmAnalysis :=
  match outcome with
  | .parsedJson analysis => analysis
  | .textResponse extraction => parseTextResponse extraction location category
  | .serviceFailure => generateFallbackAnalysis location category data

/-- `calculateAveragePrice` (src/unnamed/part_001): price tier →
rupee amount for two; `!priceLevel` makes both null and 0 yield null,
and tiers outside the table fall through `|| null`. -/
def calculateAveragePrice (priceLevel : Option ℤ) : Option ℕ :=
  match priceLevel with
  | none => none
  | some p =>
    if p = 0 then none
    else if p = 1 then some 400
    else if p = 2 then some 800
    else if p = 3 then some 1500
    else if p = 4 then some 2500
    else none

/-- Footfall heuristic of `handleAnalyze` (step 2b): sum of
`user_ratings_total || 0` over the nearby places. -/
def footfallEstimate (nearbyPlaces : List Place) : ℕ :=
  nearbyPlaces.foldl (fun sum p => sum + p.user_ratings_total.getD 0) 0

/-- The `metrics` record of an assembled report (`handleAnalyze`,
step 6).  The four LLM-derived numeric fields are copied with `?.`
and may be absent; `competitorCount` and `footfall` are computed
locally and always present. -/
structure ReportMetrics where
  viabilityScore : Option ℚ
  competitionLevel : Option String
  marketSaturation : Option String
  avgRevenue : Option ℚ
  expectedRevenue : Option ℚ
  tam : Option ℚ
  competitorCount : ℕ
  footfall : ℕ
deriving Repr, DecidableEq

/-- The assembled analysis report (`handleAnalyze`, step 6).  The
creation timestamp is environmental and omitted. -/
structure AnalysisReport where
  id : String
  location : String
  category : String
  summary : String
  strengths : List String
  weaknesses : List String
  opportunities : List String
  threats : List String
  recommendation : String
  coordinates : Coordinates
  alternatives : List AlternativeLocation
  metrics : ReportMetrics
  competitors : List Competitor
deriving Repr, DecidableEq

/-- Report assembly of `handleAnalyze` (step 6): defaults for the
narrative fields, `analysis.metrics?.x` copies for the LLM metrics,
locally computed `competitorCount` and `footfall`. -/
def assembleReport (analysisId location category : String)
    (coordinates : Coordinates) (nearbyPlaces : List Place)
    (alternatives : List AlternativeLocation) (competitors : List Competitor)
    (footfall : ℕ) (analysis : LlmAnalysis) : AnalysisReport :=
  { id := analysisId
    location := location
    category := category
    summary := jsOrOpt analysis.summary "No summary available."
    strengths := analysis.strengths.getD []
    weaknesses := analysis.weaknesses.getD []
    opportunities := analysis.opportunities.getD []
    threats := analysis.threats.getD []
    recommendation := jsOrOpt analysis.recommendation "No recommendation available."
    coordinates := coordinates
    alternatives := alternatives
    metrics :=
      { viabilityScore := analysis.metrics.bind (fun m => m.viabilityScore)
        competitionLevel := analysis.metrics.bind (fun m => m.competitionLevel)
        marketSaturation := analysis.metrics.bind (fun m => m.marketSaturation)
        avgRevenue := analysis.metrics.bind (fun m => m.avgRevenue)
        expectedRevenue := analysis.metrics.bind (fun m => m.expectedRevenue)
        tam := analysis.metrics.bind (fun m => m.tam)
        competitorCount := nearbyPlaces.length
        footfall := footfall }
    competitors := competitors }

/-- End-to-end report production of `handleAnalyze` after the upstream
calls: compute the footfall estimate, run the three-tier analysis
generator on the aggregated data, and assemble the report. -/
def handleAnalyzeReport (analysisId location category : String)
    (coordinates : Coordinates) (nearbyPlaces : List Place)
    (alternatives : List AlternativeLocation) (competitors : List Competitor)
    (outcome : ServiceOutcome) : AnalysisReport :=
  let footfall := footfallEstimate nearbyPlaces
  let data : AnalysisData :=
    { location := location, category := category, coordinates := coordinates
      nearbyPlaces := nearbyPlaces, alternatives := alternatives
      competitors := competitors, footfallEstimate := footfall }
  let analysis := generateLocationAnalysis location category data outcome
  assembleReport analysisId location category coordinates nearbyPlaces
    alternatives competitors footfall analysis

/-- `MAX_CACHE` (src/unnamed/part_001). -/
def MAX_CACHE : ℕ := 50

/-- JavaScript `Map.prototype.set` on an insertion-ordered association
list: an existing key is updated in place (keeping its position), a
new key is appended. -/
def jsMapSet {K V : Type} [DecidableEq K]
    (m : List (K × V)) (k : K) (v : V) : List (K × V) :=
  if m.any (fun p => decide (p.1 = k)) then
    m.map (fun p => if p.1 = k then (k, v) else p)
  else m ++ [(k, v)]

/-- Cache insert of `handleAnalyze`: `analysisCache.set(id, report)`,
then if the size exceeds `MAX_CACHE`, delete the first key in
insertion order (`keys().next().value`). -/
def cacheStoreReport {K V : Type} [DecidableEq K]
    (m : List (K × V)) (k : K) (v : V) : List (K × V) :=
  let m2 := jsMapSet m k v
  if m2.length > MAX_CACHE then
    match m2 with
    | [] => m2
    | oldest :: _ => m2.eraseP (fun p => decide (p.1 = oldest.1))
  else m2

/-- First value stored under key `k` in the association-list cache
(JavaScript `Map.get`/`has`; keys are unique in a `Map`). -/
def cacheFind {K V : Type} [DecidableEq K]
    (m : List (K × V)) (k : K) : Option V :=
  (m.find? (fun p => decide (p.1 = k))).map Prod.snd

/-- Possible responses of `handleGetAnalysis`. -/
inductive GetAnalysisResult (V : Type) where
  | success (report : V)
  | badRequest
  | notFound
  | serverError
deriving Repr, DecidableEq

/-- `handleGetAnalysis` (src/unnamed/part_001, lines 332-389) as a
function of the cache contents and the durable-store query outcome:
`.ok (some d)` is a row, `.ok none` is the "error or no data" reply
of `.single()` on a missing id, `.error` is a thrown transport
failure.  The id is `none` when missing or not a string (the 400
branch).  The cache is consulted before the store, and again on a
store miss or store failure, before answering 404 or 500. -/
def handleGetAnalysis {K V : Type} [DecidableEq K]
    (cache : List (K × V)) (id : Option K)
    (db : Except String (Option V)) : GetAnalysisResult V :=
  match id with
  | none => .badRequest
  | some i =>
    match cacheFind cache i with
    | some v => .success v
    | none =>
      match db with
      | .error _ =>
        match cacheFind cache i with
        | some v => .success v
        | none => .serverError
      | .ok none =>
        match cacheFind cache i with
        | some v => .success v
        | none => .notFound
      | .ok (some d) => .success d

/-! ### Concrete example inputs -/

/-- A place carrying a zero-star rating and no other scoring signals. -/
def zeroRatingPlace : Place :=
  { place_id := "p0", name := "Zero Star Cafe", vicinity := none
    formatted_address := none, location := { lat := 0, lng := 0 }
    rating := some 0, user_ratings_total := none, price_level := none
    types := [] }

/-- A bare place with no optional signals. -/
def bareDummyPlace : Place :=
  { place_id := "d1", name := "Dummy", vicinity := none
    formatted_address := none, location := { lat := 0, lng := 0 }
    rating := none, user_ratings_total := none, price_level := none
    types := [] }

/-- A bare competitor profile. -/
def bareCompetitor : Competitor :=
  { name := "Competitor", address := "Somewhere", lat := none, lng := none
    rating := none, user_ratings_total := 0, price_level := none
    website := none, phone := none, google_url := none, footfall := 0
    average_price_for_2 := none }

/-- Aggregated data with no competitors and ten nearby places (drives
the fallback viability score above 100). -/
def fallbackDataTenNearby : AnalysisData :=
  { location := "MG Road, Bangalore", category := "cafe"
    coordinates := { lat := 1297/100, lng := 7759/100 }
    nearbyPlaces := List.replicate 10 bareDummyPlace, alternatives := []
    competitors := [], footfallEstimate := 0 }

/-- Aggregated data with twenty competitors and no nearby places. -/
def fallbackDataTwentyCompetitors : AnalysisData :=
  { location := "MG Road, Bangalore", category := "cafe"
    coordinates := { lat := 1297/100, lng := 7759/100 }
    nearbyPlaces := [], alternatives := []
    competitors := List.replicate 20 bareCompetitor, footfallEstimate := 0 }

/-- A service reply that parsed as JSON but carries none of the
expected analysis fields (`JSON.parse` succeeds on any JSON value). -/
def emptyParsedAnalysis : LlmAnalysis :=
  { summary := none, strengths := none, weaknesses := none
    opportunities := none, threats := none, metrics := none
    recommendation := none, keyInsights := none, actionItems := none }

/-- A cache holding exactly fifty entries, keyed 0..49 in insertion
order. -/
def cacheFifty : List (ℕ × ℕ) := (List.range 50).map (fun i => (i, i))

/-! ### Helper lemmas -/

/-- The fallback viability score is the max/min formula of the source,
read off the `metrics` record. -/
theorem fallback_viability_eq (location category : String) (data : AnalysisData) :
    ((generateFallbackAnalysis location category data).metrics.bind
        (fun m => m.viabilityScore)) =
      some ((max 30 (85 - ((data.competitors.length : ℤ) * 5)
        + min ((data.nearbyPlaces.length : ℤ) * 2) 20) : ℤ) : ℚ) := rfl

/-- Once the accumulator has reached the requested count, pushing more
candidates is a no-op. -/
theorem pushCandidates_of_full (count : ℕ) (acc : List AlternativeLocation)
    (places : List Place) (h : count ≤ acc.length) :
    pushCandidates count acc places = acc := by
  cases places with
  | nil => rfl
  | cons p rest => rw [pushCandidates, if_pos h]

/-- Once the accumulator has reached the requested count, the offset
loop stops adding candidates. -/
theorem collectAlternatives_of_full (count : ℕ)
    (outcomes : List (Except String (List Place)))
    (acc : List AlternativeLocation) (h : count ≤ acc.length) :
    collectAlternatives count outcomes acc = acc := by
  induction outcomes with
  | nil => rfl
  | cons o rest ih =>
    cases o with
    | error e => rw [collectAlternatives, ih]
    | ok places =>
      rw [collectAlternatives]
      simp only [pushCandidates_of_full count acc _ h, if_pos h]

/-- A failed fetch at one offset point is handled exactly like a
successful fetch returning no places: the remaining points are still
processed. -/
theorem collectAlternatives_error_eq_empty (count : ℕ)
    (pre post : List (Except String (List Place))) (e : String)
    (acc : List AlternativeLocation) :
    collectAlternatives count (pre ++ .error e :: post) acc =
    collectAlternatives count (pre ++ .ok [] :: post) acc := by
  induction pre generalizing acc with
  | nil =>
    simp only [List.nil_append, collectAlternatives, List.take_nil, pushCandidates]
    by_cases h : count ≤ acc.length
    · rw [if_pos h, collectAlternatives_of_full count post acc h]
    · rw [if_neg h]
  | cons o pre ih =>
    cases o with
    | error e2 =>
      simp only [List.cons_append, collectAlternatives]
      exact ih acc
    | ok places =>
      simp only [List.cons_append, collectAlternatives]
      split
      · rfl
      · exact ih _

/-- If every offset point fails or returns no places, no candidate is
ever collected. -/
theorem collectAlternatives_no_candidates (count : ℕ)
    (outcomes : List (Except String (List Place)))
    (h : ∀ o ∈ outcomes, (∃ e, o = Except.error e) ∨ o = Except.ok []) :
    collectAlternatives count outcomes [] = [] := by
  induction outcomes with
  | nil => rfl
  | cons o rest ih =>
    have hrest : ∀ o ∈ rest, (∃ e, o = Except.error e) ∨ o = Except.ok [] :=
      fun o ho => h o (List.mem_cons_of_mem _ ho)
    rcases h o (List.mem_cons_self _ _) with ⟨e, rfl⟩ | rfl
    · rw [collectAlternatives, ih hrest]
    · rw [collectAlternatives]
      simp only [List.take_nil, pushCandidates]
      split
      · rfl
      · exact ih hrest

/-- `jsMapSet` with a fresh key appends the new entry. -/
theorem jsMapSet_of_not_mem {K V : Type} [DecidableEq K]
    {m : List (K × V)} {k : K} (v : V) (h : k ∉ m.map Prod.fst) :
    jsMapSet m k v = m ++ [(k, v)] := by
  rw [jsMapSet, if_neg]
  simp only [List.any_eq_true, decide_eq_true_eq, not_exists, not_and]
  intro p hp hpk
  exact h (List.mem_map.mpr ⟨p, hp, hpk⟩)

/-! ### Claim theorems -/

/-- C6: `calculateAveragePrice` returns null for price level 0 and for
null, and the fixed table values for tiers 1-4
({1:400, 2:800, 3:1500, 4:2500}); in particular tier 2 maps to 800. -/
theorem C6_average_price_table :
    calculateAveragePrice (some 0) = none ∧
    calculateAveragePrice none = none ∧
    calculateAveragePrice (some 1) = some 400 ∧
    calculateAveragePrice (some 2) = some 800 ∧
    calculateAveragePrice (some 3) = some 1500 ∧
    calculateAveragePrice (some 4) = some 2500 :=
  ⟨rfl, rfl, rfl, rfl, rfl, rfl⟩

/-- C10: `getNearbyPlaces` is total over its failure modes — a thrown
fetch yields `[]`, a non-OK upstream status yields `[]`, an OK status
yields the (null-defaulted) result list, and a failed lookup is
indistinguishable from an OK reply over an empty neighborhood. -/
theorem C10_nearby_places_total :
    (∀ e, getNearbyPlaces (.error e) = []) ∧
    (∀ d, d.status ≠ PlacesStatus.OK → getNearbyPlaces (.ok d) = []) ∧
    (∀ d, d.status = PlacesStatus.OK → getNearbyPlaces (.ok d) = d.results.getD []) ∧
    getNearbyPlaces (.error "network failure") =
      getNearbyPlaces (.ok { status := .OK, results := some [] }) := by
  refine ⟨fun e => rfl, fun d h => ?_, fun d h => ?_, rfl⟩
  · simp [getNearbyPlaces, h]
  · simp [getNearbyPlaces, h]

/-- Witness for C10 at a concrete non-OK response. -/
theorem C10_nearby_places_total_witness :
    getNearbyPlaces (.ok { status := .ZERO_RESULTS, results := some [bareDummyPlace] }) = [] :=
  C10_nearby_places_total.2.1
    { status := .ZERO_RESULTS, results := some [bareDummyPlace] } (by decide)

/-- C2 counterexample: a place whose rating is exactly 0 is skipped by
the JavaScript truthiness guard `if (place.rating)`, so its rating
component is 0 and its overall score is 50, whereas the claimed
formula (r − 2.5) × 10 gives −25 and would drive the score to 25. -/
theorem C2_counterexample :
    ratingAdjustment (some 0) = 0 ∧
    ((0 : ℚ) - 2.5) * 10 ≠ 0 ∧
    calculateLocationScore zeroRatingPlace = 50 ∧
    max 0 (min 100 (jsRound (50 + ((0 : ℚ) - 2.5) * 10))) = 25 := by
  refine ⟨rfl, by norm_num, ?_, ?_⟩
  · norm_num [calculateLocationScore, ratingAdjustment, reviewAdjustment,
      priceAdjustment, typeRelevanceBonus, jsRound, zeroRatingPlace, relevantTypes]
  · norm_num [jsRound]

/-- C2 (amended): for every positive rating r ≤ 5 the rating component
of `calculateLocationScore` is exactly (r − 2.5) × 10, and the score
decomposes as base 50 plus the four additive components with a single
final round-and-clamp to [0, 100] (no per-component clamping); a
rating of exactly 0 contributes 0 because JavaScript treats it as
falsy. -/
theorem C2_rating_component :
    (∀ r : ℚ, 0 < r → r ≤ 5 → ratingAdjustment (some r) = (r - 2.5) * 10) ∧
    (∀ p : Place, calculateLocationScore p =
      max 0 (min 100 (jsRound (50 + ratingAdjustment p.rating
        + reviewAdjustment p.user_ratings_total + priceAdjustment p.price_level
        + typeRelevanceBonus p.types)))) ∧
    ratingAdjustment (some 0) = 0 := by
  refine ⟨fun r h1 _ => ?_, fun p => rfl, rfl⟩
  rw [ratingAdjustment, if_neg (ne_of_gt h1)]

/-- Witness for C2 (amended) at a five-star rating: component +25. -/
theorem C2_rating_component_witness :
    ratingAdjustment (some 5) = ((5 : ℚ) - 2.5) * 10 :=
  C2_rating_component.1 5 (by norm_num) (by norm_num)

/-- C3: when the service call fails, the fallback viability score is
max(30, 85 − 5 × competitors + min(2 × nearbyPlaces, 20)) for every
competitor and nearby-place count; it is 85 for 0 competitors and 0
nearby places, and 30 whenever there are 20 competitors. -/
theorem C3_fallback_viability_formula :
    (∀ location category data,
      ((generateFallbackAnalysis location category data).metrics.bind
          (fun m => m.viabilityScore)) =
        some ((max 30 (85 - ((data.competitors.length : ℤ) * 5)
          + min ((data.nearbyPlaces.length : ℤ) * 2) 20) : ℤ) : ℚ)) ∧
    (∀ location category data, data.competitors = [] → data.nearbyPlaces = [] →
      ((generateFallbackAnalysis location category data).metrics.bind
          (fun m => m.viabilityScore)) = some 85) ∧
    (∀ location category data, data.competitors.length = 20 →
      ((generateFallbackAnalysis location category data).metrics.bind
          (fun m => m.viabilityScore)) = some 30) := by
  refine ⟨fun location category data => fallback_viability_eq location category data,
    fun location category data h1 h2 => ?_, fun location category data h => ?_⟩
  · rw [fallback_viability_eq, h1, h2]
    norm_num
  · rw [fallback_viability_eq, h]
    have hm := min_le_right ((data.nearbyPlaces.length : ℤ) * 2) (20 : ℤ)
    have : (85 : ℤ) - ((20 : ℕ) : ℤ) * 5 + min ((data.nearbyPlaces.length : ℤ) * 2) 20 ≤ 30 := by
      push_cast
      linarith
    rw [max_eq_left this]
    norm_num

/-- Witness for C3 at twenty competitors: the floor of 30 is hit. -/
theorem C3_fallback_viability_formula_witness :
    ((generateFallbackAnalysis "MG Road, Bangalore" "cafe"
        fallbackDataTwentyCompetitors).metrics.bind (fun m => m.viabilityScore)) = some 30 :=
  C3_fallback_viability_formula.2.2 "MG Road, Bangalore" "cafe"
    fallbackDataTwentyCompetitors (by rfl)

/-- C4 counterexample: with 0 competitors and 10 nearby places the
fallback viability score is 105, outside the claimed 0-100 range. -/
theorem C4_counterexample :
    ((generateFallbackAnalysis "MG Road, Bangalore" "cafe"
        fallbackDataTenNearby).metrics.bind (fun m => m.viabilityScore)) = some 105 ∧
    ¬ ((105 : ℚ) ≤ 100) := by
  constructor
  · rw [fallback_viability_eq]
    norm_num [fallbackDataTenNearby]
  · norm_num

/-- C4 (amended): the fallback viability score always lies in
[30, 105] — the ≥30 floor holds, but the claimed upper bound is 105,
not 100 (the formula has no upper clamp and exceeds 100 when the
nearby-place bonus outweighs the competitor penalty). -/
theorem C4_fallback_viability_bounds :
    ∀ location category data, ∃ v : ℤ,
      ((generateFallbackAnalysis location category data).metrics.bind
          (fun m => m.viabilityScore)) = some (v : ℚ) ∧
      30 ≤ v ∧ v ≤ 105 := by
  intro location category data
  refine ⟨_, fallback_viability_eq location category data, le_max_left _ _, ?_⟩
  have h1 : (0 : ℤ) ≤ (data.competitors.length : ℤ) * 5 := by positivity
  have h2 := min_le_right ((data.nearbyPlaces.length : ℤ) * 2) (20 : ℤ)
  have h3 : (85 : ℤ) - ((data.competitors.length : ℤ) * 5)
      + min ((data.nearbyPlaces.length : ℤ) * 2) 20 ≤ 105 := by linarith
  exact max_le (by norm_num) h3

/-- C1 counterexample: on the strict-JSON tier, a reply that parses as
JSON but omits the `metrics` object yields a report whose four
LLM-derived numeric metric fields are all absent — the invariant fails
for that tier. -/
theorem C1_counterexample :
    (handleAnalyzeReport "id-1" "MG Road, Bangalore" "cafe" { lat := 0, lng := 0 }
        [] [] [] (.parsedJson emptyParsedAnalysis)).metrics.viabilityScore = none ∧
    (handleAnalyzeReport "id-1" "MG Road, Bangalore" "cafe" { lat := 0, lng := 0 }
        [] [] [] (.parsedJson emptyParsedAnalysis)).metrics.expectedRevenue = none ∧
    (handleAnalyzeReport "id-1" "MG Road, Bangalore" "cafe" { lat := 0, lng := 0 }
        [] [] [] (.parsedJson emptyParsedAnalysis)).metrics.avgRevenue = none ∧
    (handleAnalyzeReport "id-1" "MG Road, Bangalore" "cafe" { lat := 0, lng := 0 }
        [] [] [] (.parsedJson emptyParsedAnalysis)).metrics.tam = none :=
  ⟨rfl, rfl, rfl, rfl⟩

/-- C1 (amended): `footfall` and `competitorCount` are always concrete
numbers, and the four LLM-derived numeric metrics (viabilityScore,
expectedRevenue, avgRevenue, tam) are concrete whenever the analysis
came from the text-heuristics or local-fallback tier; on the
strict-JSON tier they are exactly the fields of the parsed JSON and
may be absent. -/
theorem C1_metrics_concrete :
    (∀ analysisId location category coordinates nearbyPlaces alternatives
        competitors extraction,
      ((handleAnalyzeReport analysisId location category coordinates nearbyPlaces
          alternatives competitors (.textResponse extraction)).metrics.viabilityScore.isSome = true) ∧
      ((handleAnalyzeReport analysisId location category coordinates nearbyPlaces
          alternatives competitors (.textResponse extraction)).metrics.expectedRevenue.isSome = true) ∧
      ((handleAnalyzeReport analysisId location category coordinates nearbyPlaces
          alternatives competitors (.textResponse extraction)).metrics.avgRevenue.isSome = true) ∧
      ((handleAnalyzeReport analysisId location category coordinates nearbyPlaces
          alternatives competitors (.textResponse extraction)).metrics.tam.isSome = true)) ∧
    (∀ analysisId location category coordinates nearbyPlaces alternatives competitors,
      ((handleAnalyzeReport analysisId location category coordinates nearbyPlaces
          alternatives competitors .serviceFailure).metrics.viabilityScore.isSome = true) ∧
      ((handleAnalyzeReport analysisId location category coordinates nearbyPlaces
          alternatives competitors .serviceFailure).metrics.expectedRevenue.isSome = true) ∧
      ((handleAnalyzeReport analysisId location category coordinates nearbyPlaces
          alternatives competitors .serviceFailure).metrics.avgRevenue.isSome = true) ∧
      ((handleAnalyzeReport analysisId location category coordinates nearbyPlaces
          alternatives competitors .serviceFailure).metrics.tam.isSome = true)) ∧
    (∀ analysisId location category coordinates nearbyPlaces alternatives
        competitors outcome,
      ((handleAnalyzeReport analysisId location category coordinates nearbyPlaces
          alternatives competitors outcome).metrics.competitorCount = nearbyPlaces.length) ∧
      ((handleAnalyzeReport analysisId location category coordinates nearbyPlaces
          alternatives competitors outcome).metrics.footfall = footfallEstimate nearbyPlaces)) :=
  ⟨fun _ _ _ _ _ _ _ _ => ⟨rfl, rfl, rfl, rfl⟩,
   fun _ _ _ _ _ _ _ => ⟨rfl, rfl, rfl, rfl⟩,
   fun _ _ _ _ _ _ _ outcome => by cases outcome <;> exact ⟨rfl, rfl⟩⟩

/-- C5: `findAlternativeLocations` returns at most the requested count
of candidates, and the returned list is sorted descending by score. -/
theorem C5_alternatives_sorted_bounded :
    ∀ (count : ℕ) (outcomes : List (Except String (List Place))),
      (findAlternativeLocations count outcomes).length ≤ count ∧
      (findAlternativeLocations count outcomes).Sorted
        (fun a b => b.score ≤ a.score) := by
  intro count outcomes
  constructor
  · rw [findAlternativeLocations]
    exact List.length_take_le count _
  · rw [findAlternativeLocations]
    have hs := @List.sorted_mergeSort AlternativeLocation
      (fun a b => decide (b.score ≤ a.score))
      (fun a b c => by simpa using fun h1 h2 => le_trans h2 h1)
      (fun a b => by simpa using le_total b.score a.score)
      (collectAlternatives count outcomes [])
    have hs2 : (List.mergeSort (collectAlternatives count outcomes [])
        (fun a b => decide (b.score ≤ a.score))).Sorted
          (fun a b => b.score ≤ a.score) := by
      refine hs.imp ?_
      intro a b h
      simpa using h
    exact hs2.sublist (List.take_sublist count _)

/-- C8: a failed fetch at one offset search point is skipped without
aborting the scoring pass (the run is equivalent to that point
returning no places), and when every offset point fails or returns no
places the result is the empty list, not an error. -/
theorem C8_offset_failure_skipped :
    (∀ (count : ℕ) (pre post : List (Except String (List Place))) (e : String),
      findAlternativeLocations count (pre ++ Except.error e :: post) =
        findAlternativeLocations count (pre ++ Except.ok [] :: post)) ∧
    (∀ (count : ℕ) (outcomes : List (Except String (List Place))),
      (∀ o ∈ outcomes, (∃ e, o = Except.error e) ∨ o = Except.ok []) →
      findAlternativeLocations count outcomes = []) := by
  constructor
  · intro count pre post e
    rw [findAlternativeLocations, findAlternativeLocations,
      collectAlternatives_error_eq_empty]
  · intro count outcomes h
    rw [findAlternativeLocations, collectAlternatives_no_candidates count outcomes h]
    simp

/-- Witness for C8: one failed point and one empty point produce an
empty result. -/
theorem C8_offset_failure_skipped_witness :
    findAlternativeLocations 5 [Except.error "network down", Except.ok []] = [] :=
  C8_offset_failure_skipped.2 5 [Except.error "network down", Except.ok []]
    (by
      intro o ho
      rcases List.mem_cons.mp ho with rfl | h2
      · exact Or.inl ⟨"network down", rfl⟩
      · rcases List.mem_cons.mp h2 with rfl | h3
        · exact Or.inr rfl
        · exact absurd h3 (List.not_mem_nil o))

/-- C7: the analysis cache is bounded first-in-first-out with capacity
50 — inserting a fresh key into a 50-entry cache appends the new entry
and evicts exactly the oldest-inserted one, leaving 50 entries; and an
insert never grows a ≤50-entry cache beyond 50. -/
theorem C7_cache_fifo_eviction {K V : Type} [DecidableEq K] :
    (∀ (cache : List (K × V)) (k : K) (v : V),
      k ∉ cache.map Prod.fst → cache.length = 50 →
      cacheStoreReport cache k v = cache.tail ++ [(k, v)] ∧
      (cacheStoreReport cache k v).length = 50) ∧
    (∀ (cache : List (K × V)) (k : K) (v : V),
      cache.length ≤ 50 → (cacheStoreReport cache k v).length ≤ 50) := by
  constructor
  · intro cache k v hk hlen
    cases cache with
    | nil => simp at hlen
    | cons c0 t =>
      have ht : t.length = 49 := by simpa using hlen
      have hm2 : jsMapSet (c0 :: t) k v = c0 :: (t ++ [(k, v)]) := by
        rw [jsMapSet_of_not_mem v hk]
        rfl
      have hstore : cacheStoreReport (c0 :: t) k v = t ++ [(k, v)] := by
        simp only [cacheStoreReport, hm2, MAX_CACHE]
        rw [if_pos (by simp [ht])]
        exact List.eraseP_cons_of_pos (by simp)
      refine ⟨by rw [hstore]; rfl, ?_⟩
      rw [hstore]
      simp [ht]
  · intro cache k v hlen
    by_cases hmem : cache.any (fun p => decide (p.1 = k)) = true
    · have hupd : jsMapSet cache k v =
          cache.map (fun p => if p.1 = k then (k, v) else p) := by
        rw [jsMapSet, if_pos hmem]
      simp only [cacheStoreReport, hupd, List.length_map]
      rw [if_neg (by simp [MAX_CACHE]; omega)]
      simpa using hlen
    · have happ : jsMapSet cache k v = cache ++ [(k, v)] := by
        rw [jsMapSet, if_neg hmem]
      cases cache with
      | nil =>
        simp only [cacheStoreReport, happ, MAX_CACHE]
        simp
      | cons c0 t =>
        have hlt : t.length + 1 ≤ 50 := by simpa using hlen
        simp only [cacheStoreReport, happ, MAX_CACHE, List.cons_append]
        by_cases hgt : (c0 :: (t ++ [(k, v)])).length > 50
        · rw [if_pos hgt]
          rw [List.eraseP_cons_of_pos (by simp)]
          simp
          omega
        · rw [if_neg hgt]
          simp at hgt ⊢
          omega

/-- Witness for C7: inserting key 50 into the full 50-entry cache
evicts key 0 and keeps the size at 50. -/
theorem C7_cache_fifo_eviction_witness :
    cacheStoreReport cacheFifty 50 50 = cacheFifty.tail ++ [(50, 50)] ∧
    (cacheStoreReport cacheFifty 50 50).length = 50 :=
  C7_cache_fifo_eviction.1 cacheFifty 50 50 (by decide) (by decide)

/-- C9: `handleGetAnalysis` answers not-found exactly when the cache
misses and the durable store replies with no row for the id (no
unrelated error is surfaced in that case), and a cache hit wins
regardless of the store outcome — the cache is consulted first. -/
theorem C9_get_analysis_not_found {K V : Type} [DecidableEq K] :
    (∀ (cache : List (K × V)) (i : K) (db : Except String (Option V)),
      handleGetAnalysis cache (some i) db = GetAnalysisResult.notFound ↔
        (cacheFind cache i = none ∧ db = Except.ok none)) ∧
    (∀ (cache : List (K × V)) (i : K) (v : V) (db : Except String (Option V)),
      cacheFind cache i = some v →
        handleGetAnalysis cache (some i) db = GetAnalysisResult.success v) := by
  constructor
  · intro cache i db
    cases hc : cacheFind cache i with
    | some v => simp [handleGetAnalysis, hc]
    | none =>
      cases db with
      | error e => simp [handleGetAnalysis, hc]
      | ok o =>
        cases o with
        | none => simp [handleGetAnalysis, hc]
        | some d => simp [handleGetAnalysis, hc]
  · intro cache i v db h
    simp [handleGetAnalysis, h]

/-- Witness for C9: the empty cache and a no-row store reply yield
not-found. -/
theorem C9_get_analysis_not_found_witness :
    handleGetAnalysis ([] : List (ℕ × ℕ)) (some 0) (Except.ok none) =
      GetAnalysisResult.notFound :=
  (C9_get_analysis_not_found.1 [] 0 (Except.ok none)).mpr ⟨rfl, rfl⟩

end HighbrooksRealty
